import Mathlib

/- Verification of the utility-emissions chaincode
(utility-emissions-channel/chaincode/node/lib/emissionscontract.js) and its
remote invocation client, as a shallow embedding in Lean 4.

JavaScript numbers are modelled by JsNum: an exact rational together with the
IEEE special values Infinity, -Infinity and NaN, so that division by zero is
represented faithfully (it produces Infinity or NaN, it does not fail).
Finite-precision rounding is not modelled; all claims here are algebraic.

Strings stored in JSON records may be absent; an absent field is Option.none
and JavaScript coercion of the undefined value to a string yields the string
undefined, as in the source runtime.
-/

set_option autoImplicit false

/-- A JavaScript number: an exact rational, or one of the IEEE special
values Infinity, -Infinity, NaN. -/
inductive JsNum where
  | num : ℚ → JsNum
  | inf : JsNum
  | negInf : JsNum
  | nan : JsNum
deriving DecidableEq, Repr

/-- JavaScript addition on numbers, with IEEE special-value rules. -/
def jsAdd : JsNum → JsNum → JsNum
  | JsNum.num a, JsNum.num b => JsNum.num (a + b)
  | JsNum.nan, _ => JsNum.nan
  | _, JsNum.nan => JsNum.nan
  | JsNum.inf, JsNum.negInf => JsNum.nan
  | JsNum.negInf, JsNum.inf => JsNum.nan
  | JsNum.inf, _ => JsNum.inf
  | _, JsNum.inf => JsNum.inf
  | JsNum.negInf, _ => JsNum.negInf
  | _, JsNum.negInf => JsNum.negInf

/-- JavaScript negation on numbers. -/
def jsNeg : JsNum → JsNum
  | JsNum.num a => JsNum.num (-a)
  | JsNum.inf => JsNum.negInf
  | JsNum.negInf => JsNum.inf
  | JsNum.nan => JsNum.nan

/-- JavaScript subtraction on numbers. -/
def jsSub (a b : JsNum) : JsNum := jsAdd a (jsNeg b)

/-- JavaScript multiplication on numbers, with IEEE special-value rules. -/
def jsMul : JsNum → JsNum → JsNum
  | JsNum.num a, JsNum.num b => JsNum.num (a * b)
  | JsNum.nan, _ => JsNum.nan
  | _, JsNum.nan => JsNum.nan
  | JsNum.inf, JsNum.num b => if 0 < b then JsNum.inf else if b < 0 then JsNum.negInf else JsNum.nan
  | JsNum.num a, JsNum.inf => if 0 < a then JsNum.inf else if a < 0 then JsNum.negInf else JsNum.nan
  | JsNum.negInf, JsNum.num b => if 0 < b then JsNum.negInf else if b < 0 then JsNum.inf else JsNum.nan
  | JsNum.num a, JsNum.negInf => if 0 < a then JsNum.negInf else if a < 0 then JsNum.inf else JsNum.nan
  | JsNum.inf, JsNum.inf => JsNum.inf
  | JsNum.inf, JsNum.negInf => JsNum.negInf
  | JsNum.negInf, JsNum.inf => JsNum.negInf
  | JsNum.negInf, JsNum.negInf => JsNum.inf

/-- JavaScript division on numbers: division of a nonzero finite number by
zero yields a signed infinity, zero by zero yields NaN (the sign of zero is
not modelled, rationals have a single zero). -/
def jsDiv : JsNum → JsNum → JsNum
  | JsNum.nan, _ => JsNum.nan
  | _, JsNum.nan => JsNum.nan
  | JsNum.num a, JsNum.num b =>
      if b = 0 then (if 0 < a then JsNum.inf else if a < 0 then JsNum.negInf else JsNum.nan)
      else JsNum.num (a / b)
  | JsNum.num _, JsNum.inf => JsNum.num 0
  | JsNum.num _, JsNum.negInf => JsNum.num 0
  | JsNum.inf, JsNum.num b => if 0 ≤ b then JsNum.inf else JsNum.negInf
  | JsNum.negInf, JsNum.num b => if 0 ≤ b then JsNum.negInf else JsNum.inf
  | JsNum.inf, JsNum.inf => JsNum.nan
  | JsNum.inf, JsNum.negInf => JsNum.nan
  | JsNum.negInf, JsNum.inf => JsNum.nan
  | JsNum.negInf, JsNum.negInf => JsNum.nan

instance : Add JsNum := ⟨jsAdd⟩
instance : Sub JsNum := ⟨jsSub⟩
instance : Mul JsNum := ⟨jsMul⟩
instance : Div JsNum := ⟨jsDiv⟩
instance : Neg JsNum := ⟨jsNeg⟩

/-- JavaScript truthiness of a number: 0 and NaN are falsy. -/
def jsTruthyNum : JsNum → Bool
  | JsNum.num a => decide (a ≠ 0)
  | JsNum.nan => false
  | _ => true

/-- JavaScript truthiness of a possibly-absent number field: the undefined
value is falsy. -/
def jsTruthyOptNum : Option JsNum → Bool
  | Option.none => false
  | Option.some x => jsTruthyNum x

/-- JavaScript truthiness of a possibly-absent string field: the undefined
value and the empty string are falsy. -/
def jsTruthyOptStr : Option String → Bool
  | Option.none => false
  | Option.some s => decide (s ≠ "")

/-- JavaScript coercion of a possibly-absent string value to a string by
concatenation with the empty string: the undefined value becomes the
nine-character string undefined. -/
def jsCoe : Option String → String
  | Option.none => "undefined"
  | Option.some s => s

/-- ASCII lowercase of a string, character by character, as the JavaScript
toLowerCase call does on the ASCII division names involved. -/
def jsToLower (s : String) : String := String.mk (s.data.map Char.toLower)

/-- The divisions field of a utility lookup item: a division_type and
division_id pair (data model of the spec and of the source query code). -/
structure DivisionsField where
  division_type : String
  division_id : String
deriving DecidableEq, Repr

/-- A utility lookup item as read back from the ledger JSON: state_province
may be absent (Option.none models a missing key in the stored JSON), the
divisions pair is present. Only the fields read by getEmissionsFactor are
modelled. -/
structure UtilityLookupItem where
  state_province : Option String
  divisions : DivisionsField
deriving DecidableEq, Repr

/-- A resolved division as built by getEmissionsFactor: division_id can be
the undefined value (when it is copied from an absent state_province). -/
structure RawDivision where
  division_id : Option String
  division_type : String
deriving DecidableEq, Repr

/-- The newDivision computation of getEmissionsFactor (emissionscontract.js
lines 165-188): hasStateData coerces a possibly-absent state_province to a
string and tests its length, then the state / nerc_region / non-US country /
USA default cascade picks the division. -/
def resolveDivision (item : UtilityLookupItem) : RawDivision :=
  let hasStateData := 0 < (jsCoe item.state_province).length
  let isNercRegion := jsToLower item.divisions.division_type = "nerc_region"
  let isNonUSCountry := jsToLower item.divisions.division_type = "country"
    ∧ jsToLower item.divisions.division_id ≠ "usa"
  if hasStateData then
    { division_id := item.state_province, division_type := "STATE" }
  else if isNercRegion then
    { division_id := Option.some item.divisions.division_id,
      division_type := item.divisions.division_type }
  else if isNonUSCountry then
    { division_id := Option.some item.divisions.division_id, division_type := "Country" }
  else
    { division_id := Option.some ("USA"), division_type := "COUNTRY" }

/-- Concrete lookup item of the section-8 scenario: state_province CA over a
domestic country division. -/
def itemCA : UtilityLookupItem :=
  { state_province := Option.some ("CA"),
    divisions := { division_type := "country", division_id := "USA" } }

/-- Concrete lookup item with an absent state_province and a NERC region
division. -/
def itemNoState : UtilityLookupItem :=
  { state_province := Option.none,
    divisions := { division_type := "NERC_REGION", division_id := "WECC" } }

/-- Concrete lookup item with a present-but-empty state_province and a NERC
region division whose division_id is empty. -/
def itemEmptyNerc : UtilityLookupItem :=
  { state_province := Option.some (""),
    divisions := { division_type := "NERC_REGION", division_id := "" } }

/-- A failure escaping the chaincode engine: either a runtime ReferenceError
(an undefined identifier was called, as at the reject call of
getEmissionsFactor) or a thrown Error with a message. -/
inductive JsError where
  | referenceError : String → JsError
  | thrown : String → JsError
deriving DecidableEq, Repr

/-- The queryParams object getEmissionsFactor hands to the factor store:
division_id, division_type, and a year key that is only set when year
extraction produced a truthy value. -/
structure QueryParams where
  division_id : String
  division_type : String
  year : Option Nat
deriving DecidableEq, Repr

/-- Modelled from the spec: the year-extraction helper of emissions-calc.js
(get_full_year_from_date) is not under src. Per the spec it is a best-effort
parse of the calendar year of a date string, yielding no year on parse
failure; dates are zero-padded ISO strings, so the year is the leading
four-digit run. -/
def get_full_year_from_date (d : String) : Option Nat :=
  let cs := d.data.take 4
  if cs.length = 4 ∧ cs.all Char.isDigit then
    let y := cs.foldl (fun n c => n * 10 + (c.toNat - 48)) 0
    if 0 < y then Option.some y else Option.none
  else Option.none

/-- The query-building half of getEmissionsFactor (emissionscontract.js
lines 165-209): resolve the division; if its division_id is falsy the code
calls the undefined identifier reject, which raises a ReferenceError at
runtime; otherwise build queryParams, adding the year filter only when year
extraction yields a truthy year. -/
def buildQueryParams (item : UtilityLookupItem) (thruDate : String) :
    Except JsError QueryParams :=
  let nd := resolveDivision item
  if jsTruthyOptStr nd.division_id then
    Except.ok
      { division_id := nd.division_id.getD (""),
        division_type := nd.division_type,
        year := match get_full_year_from_date thruDate with
                | Option.some y => if y ≠ 0 then Option.some y else Option.none
                | Option.none => Option.none }
  else
    Except.error (JsError.referenceError ("reject is not defined"))

/-- A utility emissions factor record as read back from the ledger, with the
fields getCo2Emissions reads. Numeric fields are JavaScript numbers;
percent_of_renewables may be absent. -/
structure UtilityFactor where
  division_type : String
  division_id : String
  year : String
  co2_equivalent_emissions : JsNum
  co2_equivalent_emissions_uom : String
  net_generation : JsNum
  net_generation_uom : String
  non_renewables : JsNum
  renewables : JsNum
  percent_of_renewables : Option JsNum
deriving DecidableEq, Repr

/-- The object getCo2Emissions returns on success. -/
structure Co2Result where
  emissions_value : JsNum
  emissions_uom : String
  division_type : String
  division_id : String
  renewable_energy_use_amount : JsNum
  nonrenewable_energy_use_amount : JsNum
  year : String
deriving DecidableEq, Repr

/-- Split a character list on the slash character; split of an empty list
is one empty group, as in the JavaScript split. -/
def splitCharsOnSlash : List Char → List (List Char)
  | [] => [[]]
  | c :: cs =>
    let rest := splitCharsOnSlash cs
    if c = '/' then [] :: rest
    else
      match rest with
      | [] => [[c]]
      | g :: gs => (c :: g) :: gs

/-- The JavaScript split of a string on the slash separator, as applied to
the compound co2_equivalent_emissions_uom. -/
def jsSplitOnSlash (s : String) : List String :=
  (splitCharsOnSlash s.data).map String.mk

/-- The calculation core of getCo2Emissions (emissionscontract.js lines
236-295), applied to an already-fetched factor record. The unit conversion
table of emissions-calc.js (get_uom_factor, not under src) is passed in as
the function f. Branch selection is the JavaScript truthiness test on
percent_of_renewables. -/
def getCo2Emissions (f : String → JsNum) (uf : UtilityFactor) (usage : JsNum)
    (usage_uom : String) : Co2Result :=
  if jsTruthyOptNum uf.percent_of_renewables then
    let parts := jsSplitOnSlash uf.co2_equivalent_emissions_uom
    let emissions_value :=
      uf.co2_equivalent_emissions * usage * (f (parts.getD 0 ("")) / f (parts.getD 1 ("")))
    let percent := (uf.percent_of_renewables.getD JsNum.nan) / JsNum.num 100
    { emissions_value := emissions_value,
      emissions_uom := "g",
      division_type := uf.division_type,
      division_id := uf.division_id,
      renewable_energy_use_amount := usage * percent,
      nonrenewable_energy_use_amount := usage * (JsNum.num 1 - percent),
      year := uf.year }
  else
    let usage_uom_conversion := f usage_uom / f uf.net_generation_uom
    let emissions_uom_conversion := f uf.co2_equivalent_emissions_uom / f ("tons")
    let emissions_value :=
      uf.co2_equivalent_emissions / uf.net_generation * usage
        * usage_uom_conversion * emissions_uom_conversion
    let total_generation := uf.non_renewables + uf.renewables
    { emissions_value := emissions_value,
      emissions_uom := "tons",
      division_type := uf.division_type,
      division_id := uf.division_id,
      renewable_energy_use_amount := usage * (uf.renewables / total_generation),
      nonrenewable_energy_use_amount := usage * (uf.non_renewables / total_generation),
      year := uf.year }

/-- getCo2Emissions end to end (emissionscontract.js lines 224-295): build
the factor query from the lookup item, run it against the factor store
(the store collaborator is the query argument), fail with the
NoFactorFound message when it returns no rows, else calculate on the first
row. -/
def getCo2EmissionsFull (query : QueryParams → List UtilityFactor)
    (f : String → JsNum) (item : UtilityLookupItem) (thruDate : String)
    (usage : JsNum) (usage_uom : String) : Except JsError Co2Result :=
  match buildQueryParams item thruDate with
  | Except.error e => Except.error e
  | Except.ok qp =>
    match query qp with
    | [] => Except.error (JsError.thrown ("No utility emissions factor found for given query"))
    | uf :: _ => Except.ok (getCo2Emissions f uf usage usage_uom)

/-- Modelled from the spec: the EmissionsRecord entity (emissions.js is not
under src); fields per the data model section and the createInstance call
sites of emissionscontract.js. -/
structure EmissionsRecord where
  uuid : String
  utilityId : String
  partyId : String
  fromDate : String
  thruDate : String
  emissionsAmount : JsNum
  renewable_energy_use_amount : JsNum
  nonrenewable_energy_use_amount : JsNum
  energyUseUom : String
  factor_source : String
  url : String
  md5 : String
  tokenId : Option String
deriving DecidableEq, Repr

/-- The factor_source provenance string of recordEmissions (line 42). -/
def mkFactorSource (co2 : Co2Result) : String :=
  "eGrid (" ++ co2.year ++ ") " ++ co2.division_type ++ " " ++ co2.division_id

/-- recordEmissions (emissionscontract.js lines 39-67): run the calculation,
derive the record key as the hash of utilityId+partyId+fromDate+thruDate
(the MD5 collaborator is the injected hash function), build the record with
that uuid and a null tokenId, and persist it under that key; the returned
pair is the storage key and the stored record. -/
def recordEmissions (hash : String → String) (query : QueryParams → List UtilityFactor)
    (f : String → JsNum) (item : UtilityLookupItem)
    (utilityId partyId fromDate thruDate : String) (energyUseAmount : JsNum)
    (energyUseUom url md5v : String) : Except JsError (String × EmissionsRecord) :=
  match getCo2EmissionsFull query f item thruDate energyUseAmount energyUseUom with
  | Except.error e => Except.error e
  | Except.ok co2 =>
    let uuid := hash (utilityId ++ partyId ++ fromDate ++ thruDate)
    Except.ok (uuid,
      { uuid := uuid, utilityId := utilityId, partyId := partyId,
        fromDate := fromDate, thruDate := thruDate,
        emissionsAmount := co2.emissions_value,
        renewable_energy_use_amount := co2.renewable_energy_use_amount,
        nonrenewable_energy_use_amount := co2.nonrenewable_energy_use_amount,
        energyUseUom := energyUseUom, factor_source := mkFactorSource co2,
        url := url, md5 := md5v, tokenId := Option.none })

/-- updateEmissionsRecord (emissionscontract.js lines 69-106): rebuild the
record from the caller-supplied fields, keeping the caller-supplied uuid,
and persist it under that same uuid; no recalculation and no rehash. The
returned pair is the storage key and the stored record. -/
def updateEmissionsRecord (uuid utilityId partyId fromDate thruDate : String)
    (emissionsAmount renewableAmount nonrenewableAmount : JsNum)
    (energyUseUom factor_source url md5v : String) (tokenId : Option String) :
    String × EmissionsRecord :=
  (uuid,
    { uuid := uuid, utilityId := utilityId, partyId := partyId,
      fromDate := fromDate, thruDate := thruDate,
      emissionsAmount := emissionsAmount,
      renewable_energy_use_amount := renewableAmount,
      nonrenewable_energy_use_amount := nonrenewableAmount,
      energyUseUom := energyUseUom, factor_source := factor_source,
      url := url, md5 := md5v, tokenId := tokenId })

/-- The JSON record shape the remote invocation client reads out of a
transaction result (fields it projects from jsonResult / Record). All
values are kept as strings, matching the transport which serializes
everything. -/
structure EmissionsJson where
  utilityId : String
  partyId : String
  fromDate : String
  thruDate : String
  emissionsAmount : String
  emissionsUom : String
  renewableEnergyUseAmount : String
  nonrenewableEnergyUseAmount : String
  energyUseUom : String
  factorSource : String
deriving DecidableEq, Repr

/-- What a remote invocation client operation hands back to its caller: a
plain string, a single result object (an association list in insertion
order), or an array of result objects. -/
inductive ClientResult where
  | str : String → ClientResult
  | obj : List (String × String) → ClientResult
  | arr : List (List (String × String)) → ClientResult
deriving DecidableEq, Repr

/-- The outcome of the transport round trip of one client operation: the
gateway connect fails, a later step fails (submit or evaluate throws, or
the result fails to parse — both land in the outer catch), or the
transaction succeeds with a payload. -/
inductive TxOutcome (α : Type) where
  | connectError : String → TxOutcome α
  | laterError : String → TxOutcome α
  | success : α → TxOutcome α

/-- The info field of a result object, if the result is an object carrying
one. -/
def infoOf : ClientResult → Option String
  | ClientResult.obj kvs => kvs.lookup ("info")
  | _ => Option.none

/-- EmissionsContractInvoke.recordEmissions result shaping: a connect error
is caught in the inner try and returned as the plain string ERROR plus the
message; any later failure lands in the outer catch and is returned as an
object with the failure info line and the six ledger inputs echoed; on
success the object echoes the parsed record (note energyUseAmount is set
from jsonResult.emissionsAmount, and energyUseUom, first written with
jsonResult.emissionsUom, is overwritten with jsonResult.energyUseUom). -/
def invoke_recordEmissions (outcome : TxOutcome EmissionsJson)
    (userId orgName utilityId partyId fromDate thruDate energyUseAmount energyUseUom : String) :
    ClientResult :=
  match outcome with
  | TxOutcome.connectError m => ClientResult.str ("ERROR: " ++ m)
  | TxOutcome.laterError m =>
      ClientResult.obj
        [("info", "Failed to submit transaction: " ++ m),
         ("utilityId", utilityId), ("partyId", partyId),
         ("fromDate", fromDate), ("thruDate", thruDate),
         ("energyUseAmount", energyUseAmount), ("energyUseUom", energyUseUom)]
  | TxOutcome.success j =>
      ClientResult.obj
        [("info", "EMISSION RECORDED TO LEDGER"),
         ("utilityId", j.utilityId), ("partyId", j.partyId),
         ("fromDate", j.fromDate), ("thruDate", j.thruDate),
         ("energyUseAmount", j.emissionsAmount), ("energyUseUom", j.energyUseUom),
         ("renewableEnergyUseAmount", j.renewableEnergyUseAmount),
         ("nonrenewableEnergyUseAmount", j.nonrenewableEnergyUseAmount),
         ("factorSource", j.factorSource)]

/-- EmissionsContractInvoke.getEmissionsData result shaping: connect errors
return the plain ERROR string, later failures return an object with the
evaluate failure info line echoing only the uuid, success returns the
projected record. -/
def invoke_getEmissionsData (outcome : TxOutcome EmissionsJson)
    (userId orgName uuid : String) : ClientResult :=
  match outcome with
  | TxOutcome.connectError m => ClientResult.str ("ERROR: " ++ m)
  | TxOutcome.laterError m =>
      ClientResult.obj
        [("info", "Failed to evaluate transaction: " ++ m), ("uuid", uuid)]
  | TxOutcome.success j =>
      ClientResult.obj
        [("info", "UTILITY EMISSIONS DATA"),
         ("utilityId", j.utilityId), ("partyId", j.partyId),
         ("fromDate", j.fromDate), ("thruDate", j.thruDate),
         ("emissionsAmount", j.emissionsAmount), ("emissionsUom", j.emissionsUom),
         ("renewableEnergyUseAmount", j.renewableEnergyUseAmount),
         ("nonrenewableEnergyUseAmount", j.nonrenewableEnergyUseAmount),
         ("energyUseUom", j.energyUseUom), ("factorSource", j.factorSource)]

/-- One row of the getAllEmissionsData output array. -/
def allEmissionsRow (j : EmissionsJson) : List (String × String) :=
  [("info", "UTILITY EMISSIONS DATA"),
   ("utilityId", j.utilityId), ("partyId", j.partyId),
   ("fromDate", j.fromDate), ("thruDate", j.thruDate),
   ("emissionsAmount", j.emissionsAmount), ("emissionsUom", j.emissionsUom),
   ("renewableEnergyUseAmount", j.renewableEnergyUseAmount),
   ("nonrenewableEnergyUseAmount", j.nonrenewableEnergyUseAmount),
   ("energyUseUom", j.energyUseUom), ("factorSource", j.factorSource)]

/-- The recency filter of getAllEmissionsData: a row is dropped exactly when
the leading four characters of fromDate parse as a year strictly below
currentYear minus one (an unparsable leading run compares as NaN, and the row is kept). -/
def keepRecent (currentYear : Nat) (j : EmissionsJson) : Bool :=
  match get_full_year_from_date j.fromDate with
  | Option.some y => decide (¬ y < currentYear - 1)
  | Option.none => true

/-- EmissionsContractInvoke.getAllEmissionsData result shaping: connect
errors return the plain ERROR string; any later failure returns the empty
all_emissions array (the info object built in the catch block is discarded,
the catch returns all_emissions); success returns the recency-filtered
rows. -/
def invoke_getAllEmissionsData (outcome : TxOutcome (List EmissionsJson))
    (currentYear : Nat) (userId orgName utilityId partyId : String) : ClientResult :=
  match outcome with
  | TxOutcome.connectError m => ClientResult.str ("ERROR: " ++ m)
  | TxOutcome.laterError _ => ClientResult.arr []
  | TxOutcome.success rows =>
      ClientResult.arr ((rows.filter (keepRecent currentYear)).map allEmissionsRow)

/-- The positional argument list EmissionsContractInvoke.recordEmissions
submits after the transaction name (emissionscontract.js client part, the
submitTransaction call): a freshly generated uuid followed by the six
ledger inputs of the caller. -/
def clientSubmittedArgs (uuid utilityId partyId fromDate thruDate energyUseAmount energyUseUom : String) :
    List String :=
  [uuid, utilityId, partyId, fromDate, thruDate, energyUseAmount, energyUseUom]

/-- The parameters of the chaincode engine recordEmissions (line 39), in
declaration order; a parameter not covered by the submitted argument list
is bound to the undefined value. -/
structure EngineRecordArgs where
  utilityId : Option String
  partyId : Option String
  fromDate : Option String
  thruDate : Option String
  energyUseAmount : Option String
  energyUseUom : Option String
  url : Option String
  md5 : Option String
deriving DecidableEq, Repr

/-- Positional binding of a submitted argument list to the engine
recordEmissions parameter list. -/
def bindRecordEmissionsArgs (args : List String) : EngineRecordArgs :=
  { utilityId := args.get? 0, partyId := args.get? 1,
    fromDate := args.get? 2, thruDate := args.get? 3,
    energyUseAmount := args.get? 4, energyUseUom := args.get? 5,
    url := args.get? 6, md5 := args.get? 7 }

/-- A concrete stand-in hash for witnesses: append the letter h. -/
def hash0 (s : String) : String := s ++ "h"

/-- A concrete stand-in unit conversion table for witnesses. -/
def f0 (u : String) : JsNum :=
  if u = "lbs" then JsNum.num 454 else JsNum.num 1000

/-- A concrete unit conversion table mapping every symbol to one, for the
division-by-zero evaluations. -/
def fOne (_ : String) : JsNum := JsNum.num 1

/-- The section-8 scenario factor: percent_of_renewables 40, a compound
lbs/MWh emissions uom. -/
def uf40 : UtilityFactor :=
  { division_type := "STATE", division_id := "CA", year := "2020",
    co2_equivalent_emissions := JsNum.num 500,
    co2_equivalent_emissions_uom := "lbs/MWh",
    net_generation := JsNum.num 0, net_generation_uom := "",
    non_renewables := JsNum.num 0, renewables := JsNum.num 0,
    percent_of_renewables := Option.some (JsNum.num 40) }

/-- A net-generation branch factor whose net_generation is zero. -/
def ufNetZero : UtilityFactor :=
  { division_type := "NERC_REGION", division_id := "WECC", year := "2019",
    co2_equivalent_emissions := JsNum.num 500,
    co2_equivalent_emissions_uom := "tons",
    net_generation := JsNum.num 0, net_generation_uom := "MWh",
    non_renewables := JsNum.num 100, renewables := JsNum.num 50,
    percent_of_renewables := Option.none }

/-- A net-generation branch factor whose total generation is zero. -/
def ufTotalZero : UtilityFactor :=
  { division_type := "NERC_REGION", division_id := "WECC", year := "2019",
    co2_equivalent_emissions := JsNum.num 500,
    co2_equivalent_emissions_uom := "tons",
    net_generation := JsNum.num 10, net_generation_uom := "MWh",
    non_renewables := JsNum.num 0, renewables := JsNum.num 0,
    percent_of_renewables := Option.none }

/-- A factor store holding exactly the section-8 factor. -/
def query0 (_ : QueryParams) : List UtilityFactor := [uf40]

/-- A factor store with no rows at all. -/
def queryEmpty (_ : QueryParams) : List UtilityFactor := []

theorem jsMul_num (a b : ℚ) : JsNum.num a * JsNum.num b = JsNum.num (a * b) := rfl

theorem jsAdd_num (a b : ℚ) : JsNum.num a + JsNum.num b = JsNum.num (a + b) := rfl

theorem jsSub_num (a b : ℚ) : JsNum.num a - JsNum.num b = JsNum.num (a - b) := by
  show jsSub _ _ = _
  simp [jsSub, jsAdd, jsNeg, sub_eq_add_neg]

theorem jsDiv_num (a b : ℚ) (h : b ≠ 0) : JsNum.num a / JsNum.num b = JsNum.num (a / b) := by
  show jsDiv _ _ = _
  simp [jsDiv, h]

theorem jsDiv_num_zero_pos (a : ℚ) (h : 0 < a) : JsNum.num a / JsNum.num 0 = JsNum.inf := by
  show jsDiv _ _ = _
  simp [jsDiv, h]

theorem jsDiv_zero_zero : JsNum.num 0 / JsNum.num 0 = JsNum.nan := by
  show jsDiv _ _ = _
  simp [jsDiv]

theorem jsMul_inf_num_pos (b : ℚ) (h : 0 < b) : JsNum.inf * JsNum.num b = JsNum.inf := by
  show jsMul _ _ = _
  simp [jsMul, h]

theorem jsMul_num_nan (a : ℚ) : JsNum.num a * JsNum.nan = JsNum.nan := rfl

/-- C1 (counterexample): the claimed precedence is false at a lookup item
whose state_province is absent and whose divisions pair is a NERC region:
rule 1 of the claim does not apply (state_province is not present), so the
claim predicts the divisions pair verbatim, but the code coerces the absent
field to the string undefined, takes the state branch, and resolves to an
undefined division_id with division_type STATE. -/
theorem c1_counterexample :
    resolveDivision itemNoState
      = { division_id := Option.none, division_type := "STATE" }
    ∧ resolveDivision itemNoState
      ≠ { division_id := Option.some ("WECC"), division_type := "NERC_REGION" } := by
  exact ⟨by decide, by decide⟩

/-- C1 (amended): the division resolution precedence of getEmissionsFactor,
with rule 1 broadened as the code forces: the state branch is taken when
state_province is absent or is a non-empty string (absence coerces to the
non-empty string undefined); rules 2 to 4 apply exactly when state_province
is present and empty. -/
theorem c1_division_resolution (item : UtilityLookupItem) :
    ((item.state_province = Option.none ∨
        (∃ s, item.state_province = Option.some s ∧ s ≠ "")) →
      resolveDivision item
        = { division_id := item.state_province, division_type := "STATE" })
    ∧ (item.state_province = Option.some ("") →
        (jsToLower item.divisions.division_type = "nerc_region" →
          resolveDivision item
            = { division_id := Option.some item.divisions.division_id,
                division_type := item.divisions.division_type })
        ∧ (jsToLower item.divisions.division_type ≠ "nerc_region" →
            jsToLower item.divisions.division_type = "country" →
            jsToLower item.divisions.division_id ≠ "usa" →
            resolveDivision item
              = { division_id := Option.some item.divisions.division_id,
                  division_type := "Country" })
        ∧ (jsToLower item.divisions.division_type ≠ "nerc_region" →
            ¬ (jsToLower item.divisions.division_type = "country"
                ∧ jsToLower item.divisions.division_id ≠ "usa") →
            resolveDivision item
              = { division_id := Option.some ("USA"), division_type := "COUNTRY" })) := by
  constructor
  · intro h
    have hs : 0 < (jsCoe item.state_province).length := by
      rcases h with h | ⟨s, hsp, hne⟩
      · rw [h]; decide
      · rw [hsp]
        show 0 < s.length
        have hd : s.data ≠ [] := by
          intro hd
          apply hne
          cases s
          simp_all
        show 0 < s.data.length
        exact List.length_pos.mpr hd
    simp [resolveDivision, hs]
  · intro h
    have hs : ¬ 0 < (jsCoe item.state_province).length := by
      rw [h]; decide
    refine ⟨?_, ?_, ?_⟩
    · intro hn
      simp [resolveDivision, hs, hn]
    · intro hn hc hid
      simp [resolveDivision, hs, hn, hc, hid]
    · intro hn hcc
      simp [resolveDivision, hs, hn, hcc]

/-- C1 (witness): the amended precedence applied to the section-8 lookup
item, a non-empty state_province CA: the resolver returns the STATE
division CA. -/
theorem c1_witness :
    resolveDivision itemCA
      = { division_id := Option.some ("CA"), division_type := "STATE" } :=
  (c1_division_resolution itemCA).1 (Or.inr ⟨"CA", rfl, by decide⟩)

/-- C2: on the percent_of_renewables branch (a present and truthy, finite
percent p, a compound mass/energy emissions uom), getCo2Emissions returns
emissions uom g, emissionsValue equal to co2_equivalent_emissions times
usage times the ratio of the uom factors of the mass and energy units, a
renewable split of usage times p over 100 and a nonrenewable split of usage
times one minus p over 100. The uom factor table f is the injected unit
conversion table. -/
theorem c2_branch_a (f : String → JsNum) (uf : UtilityFactor) (u p : ℚ)
    (usage_uom m e : String)
    (hp : uf.percent_of_renewables = Option.some (JsNum.num p))
    (hsel : jsTruthyOptNum uf.percent_of_renewables = true)
    (hsplit : jsSplitOnSlash uf.co2_equivalent_emissions_uom = [m, e]) :
    (getCo2Emissions f uf (JsNum.num u) usage_uom).emissions_uom = "g"
    ∧ (getCo2Emissions f uf (JsNum.num u) usage_uom).emissions_value
        = uf.co2_equivalent_emissions * JsNum.num u * (f m / f e)
    ∧ (getCo2Emissions f uf (JsNum.num u) usage_uom).renewable_energy_use_amount
        = JsNum.num (u * (p / 100))
    ∧ (getCo2Emissions f uf (JsNum.num u) usage_uom).nonrenewable_energy_use_amount
        = JsNum.num (u * (1 - p / 100)) := by
  have h100 : (100 : ℚ) ≠ 0 := by norm_num
  have hsel2 := hsel
  rw [hp] at hsel2
  refine ⟨?_, ?_, ?_, ?_⟩ <;>
    simp [getCo2Emissions, hsel2, hp, hsplit, jsDiv_num _ _ h100, jsMul_num, jsSub_num]

/-- C2 (witness): the section-8 scenario: percent_of_renewables 40, usage
1000 MWh, emissions uom lbs/MWh; the calculator returns a renewable amount
of 400 and a nonrenewable amount of 600, with emissions uom g. -/
theorem c2_witness :
    (getCo2Emissions f0 uf40 (JsNum.num 1000) "MWh").emissions_uom = "g"
    ∧ (getCo2Emissions f0 uf40 (JsNum.num 1000) "MWh").renewable_energy_use_amount
        = JsNum.num 400
    ∧ (getCo2Emissions f0 uf40 (JsNum.num 1000) "MWh").nonrenewable_energy_use_amount
        = JsNum.num 600 := by
  have h := c2_branch_a f0 uf40 1000 40 ("MWh") "lbs" "MWh" rfl (by decide) (by decide)
  refine ⟨h.1, ?_, ?_⟩
  · rw [h.2.2.1]; norm_num
  · rw [h.2.2.2]; norm_num

/-- C4: usage conservation: for every factor record usable by the
calculator (its percent, if present, is a finite number; on the
net-generation branch the renewable and nonrenewable generation fields are
finite with a nonzero total) and every finite usage amount, the renewable
and nonrenewable use amounts sum exactly to the usage, on both branches. -/
theorem c4_usage_conservation (f : String → JsNum) (uf : UtilityFactor)
    (u : ℚ) (usage_uom : String)
    (hfin : ∀ x, uf.percent_of_renewables = Option.some x → ∃ p : ℚ, x = JsNum.num p)
    (hB : jsTruthyOptNum uf.percent_of_renewables = false →
      ∃ r n : ℚ, uf.renewables = JsNum.num r ∧ uf.non_renewables = JsNum.num n ∧ r + n ≠ 0) :
    (getCo2Emissions f uf (JsNum.num u) usage_uom).renewable_energy_use_amount
      + (getCo2Emissions f uf (JsNum.num u) usage_uom).nonrenewable_energy_use_amount
      = JsNum.num u := by
  have h100 : (100 : ℚ) ≠ 0 := by norm_num
  cases htr : jsTruthyOptNum uf.percent_of_renewables with
  | true =>
    match hp : uf.percent_of_renewables with
    | Option.none => rw [hp] at htr; simp [jsTruthyOptNum] at htr
    | Option.some x =>
      obtain ⟨p, hx⟩ := hfin x hp
      subst hx
      rw [hp] at htr
      simp only [getCo2Emissions, htr, hp, if_true]
      simp [jsDiv_num _ _ h100, jsMul_num, jsSub_num, jsAdd_num]
      ring_nf
  | false =>
    obtain ⟨r, n, hr, hn, hrn⟩ := hB htr
    have hnr : n + r ≠ 0 := by intro hz; exact hrn (by linarith)
    simp only [getCo2Emissions, htr, if_false, Bool.false_eq_true]
    rw [hr, hn]
    simp [jsAdd_num, jsDiv_num _ _ hnr, jsMul_num]
    rw [← mul_add, div_add_div_same, add_comm r n, div_self hnr, mul_one]

/-- C4 (witness): the conservation applied to the section-8 scenario:
renewable 400 plus nonrenewable 600 is the usage 1000. -/
theorem c4_witness :
    (getCo2Emissions f0 uf40 (JsNum.num 1000) "MWh").renewable_energy_use_amount
      + (getCo2Emissions f0 uf40 (JsNum.num 1000) "MWh").nonrenewable_energy_use_amount
      = JsNum.num 1000 :=
  c4_usage_conservation f0 uf40 1000 ("MWh")
    (by
      intro x hx
      simp only [uf40] at hx
      exact ⟨40, (Option.some.inj hx).symm⟩)
    (by
      intro h
      simp only [uf40, jsTruthyOptNum, jsTruthyNum] at h
      norm_num at h)

/-- C10: branch selection is by truthiness, not presence: a factor record
whose percent_of_renewables is present but zero takes the net-generation
branch, computing exactly what the same record with the field absent
computes, with emissions uom tons; and the percent branch (emissions uom g)
is taken exactly when percent_of_renewables is truthy. -/
theorem c10_truthiness_branch (f : String → JsNum) (usage : JsNum)
    (usage_uom : String) (uf ufB : UtilityFactor)
    (h : uf.percent_of_renewables = Option.some (JsNum.num 0)) :
    (getCo2Emissions f uf usage usage_uom).emissions_uom = "tons"
    ∧ getCo2Emissions f uf usage usage_uom
        = getCo2Emissions f { uf with percent_of_renewables := Option.none } usage usage_uom
    ∧ ((getCo2Emissions f ufB usage usage_uom).emissions_uom = "g"
        ↔ jsTruthyOptNum ufB.percent_of_renewables = true) := by
  have htr : jsTruthyOptNum uf.percent_of_renewables = false := by
    rw [h]; simp [jsTruthyOptNum, jsTruthyNum]
  refine ⟨?_, ?_, ?_⟩
  · simp [getCo2Emissions, htr]
  · have hnone : jsTruthyOptNum (Option.none : Option JsNum) = false := rfl
    simp [getCo2Emissions, htr, hnone]
  · cases htrB : jsTruthyOptNum ufB.percent_of_renewables with
    | false => simp [getCo2Emissions, htrB]
    | true => simp [getCo2Emissions, htrB]

/-- C10 (witness): a concrete record with percent_of_renewables zero takes
the tons branch. -/
theorem c10_witness :
    (getCo2Emissions fOne
        { ufNetZero with percent_of_renewables := Option.some (JsNum.num 0) }
        (JsNum.num 1000) "MWh").emissions_uom = "tons" :=
  (c10_truthiness_branch fOne (JsNum.num 1000) "MWh"
    { ufNetZero with percent_of_renewables := Option.some (JsNum.num 0) }
    ufNetZero rfl).1

/-- C3: evaluation of the net-generation branch at zero divisors, refuting
the claimed CalculationError: with net_generation zero the code returns
emissions_value Infinity, and with total generation zero it returns NaN
renewable and nonrenewable splits; no error is raised (the calculation is
total and the only failure in getCo2Emissions is the no-factor case). -/
theorem c3_zero_generation :
    (getCo2Emissions fOne ufNetZero (JsNum.num 1000) "MWh").emissions_value = JsNum.inf
    ∧ (getCo2Emissions fOne ufTotalZero (JsNum.num 1000) "MWh").renewable_energy_use_amount
        = JsNum.nan
    ∧ (getCo2Emissions fOne ufTotalZero (JsNum.num 1000) "MWh").nonrenewable_energy_use_amount
        = JsNum.nan := by
  refine ⟨?_, ?_, ?_⟩
  · simp [getCo2Emissions, ufNetZero, fOne, jsTruthyOptNum]
    norm_num [jsDiv_num_zero_pos, jsMul_inf_num_pos, jsDiv_num, jsMul_num]
  · simp [getCo2Emissions, ufTotalZero, fOne, jsTruthyOptNum]
    norm_num [jsAdd_num, jsDiv_zero_zero, jsMul_num_nan]
  · simp [getCo2Emissions, ufTotalZero, fOne, jsTruthyOptNum]
    norm_num [jsAdd_num, jsDiv_zero_zero, jsMul_num_nan]

/-- C7: evaluation of the failure mode when the resolved division_id is
falsy (a NERC region divisions pair with an empty division_id, after an
empty state_province): the code calls the undefined identifier reject, so
the call fails with a runtime ReferenceError whose message does not name
the utility, not with the intended resolution error. -/
theorem c7_reference_error :
    buildQueryParams itemEmptyNerc ("2020-12-31")
      = Except.error (JsError.referenceError ("reject is not defined"))
    ∧ jsTruthyOptStr (resolveDivision itemEmptyNerc).division_id = false := by
  exact ⟨by rfl, by decide⟩

/-- C5: the factor lookup contract: whenever the query params build
succeeds, the year filter equals exactly the best-effort year extraction of
thruDate (absent on parse failure, so a parse failure does not fail the
call); an empty factor query makes recordEmissions fail with the
NoFactorFound message; a non-empty query runs the calculation on the first
returned row. -/
theorem c5_factor_lookup (hash : String → String)
    (query : QueryParams → List UtilityFactor) (f : String → JsNum)
    (item : UtilityLookupItem) (utilityId partyId fromDate thruDate : String)
    (usage : JsNum) (usage_uom url md5v : String) (qp : QueryParams)
    (hqp : buildQueryParams item thruDate = Except.ok qp) :
    qp.year = get_full_year_from_date thruDate
    ∧ (query qp = [] →
        recordEmissions hash query f item utilityId partyId fromDate thruDate usage usage_uom url md5v
          = Except.error (JsError.thrown ("No utility emissions factor found for given query")))
    ∧ (∀ uf rest, query qp = uf :: rest →
        getCo2EmissionsFull query f item thruDate usage usage_uom
          = Except.ok (getCo2Emissions f uf usage usage_uom)) := by
  refine ⟨?_, ?_, ?_⟩
  · unfold buildQueryParams at hqp
    by_cases htr : jsTruthyOptStr (resolveDivision item).division_id = true
    · rw [if_pos htr] at hqp
      have hq := Except.ok.inj hqp
      rw [← hq]
      cases hy : get_full_year_from_date thruDate with
      | none => simp [hy]
      | some y =>
        have hy0 : 0 < y := by
          unfold get_full_year_from_date at hy
          by_cases hc : ((thruDate.data.take 4).length = 4 ∧ (thruDate.data.take 4).all Char.isDigit)
          · rw [if_pos hc] at hy
            by_cases hp : 0 < (thruDate.data.take 4).foldl (fun n c => n * 10 + (c.toNat - 48)) 0
            · rw [if_pos hp] at hy
              cases hy
              exact hp
            · rw [if_neg hp] at hy
              cases hy
          · rw [if_neg hc] at hy
            cases hy
        simp [hy, Nat.pos_iff_ne_zero.mp hy0]
    · rw [if_neg htr] at hqp
      cases hqp
  · intro hempty
    simp only [recordEmissions, getCo2EmissionsFull, hqp, hempty]
  · intro uf rest hrow
    simp only [getCo2EmissionsFull, hqp, hrow]

/-- C5 (witness): at the section-8 lookup item and thruDate 2020-01-31 the
built query carries year 2020, and an empty factor store makes
recordEmissions fail with the NoFactorFound message. -/
theorem c5_witness :
    (buildQueryParams itemCA ("2020-01-31")
        = Except.ok { division_id := "CA", division_type := "STATE", year := Option.some 2020 })
    ∧ (Option.some 2020 : Option Nat) = get_full_year_from_date ("2020-01-31")
    ∧ recordEmissions hash0 queryEmpty f0 itemCA ("U1") "P1" "2020-01-01" "2020-01-31"
        (JsNum.num 1000) "MWh" "u" "m5"
        = Except.error (JsError.thrown ("No utility emissions factor found for given query")) := by
  have hqp : buildQueryParams itemCA ("2020-01-31")
      = Except.ok { division_id := "CA", division_type := "STATE", year := Option.some 2020 } := by rfl
  have h := c5_factor_lookup hash0 queryEmpty f0 itemCA ("U1") "P1" "2020-01-01" "2020-01-31"
    (JsNum.num 1000) "MWh" "u" "m5"
    { division_id := "CA", division_type := "STATE", year := Option.some 2020 } hqp
  exact ⟨hqp, h.1, h.2.1 rfl⟩

/-- C6: fingerprint identity: whenever recordEmissions succeeds, the key it
persists under is the hash of the concatenation
utilityId+partyId+fromDate+thruDate and the stored record carries that same
uuid (it is derived, never caller-supplied); updateEmissionsRecord persists
under exactly the caller-supplied uuid and stores it unchanged (no
recomputation). The hash is the injected MD5 collaborator. -/
theorem c6_fingerprint (hash : String → String)
    (query : QueryParams → List UtilityFactor) (f : String → JsNum)
    (item : UtilityLookupItem) (utilityId partyId fromDate thruDate : String)
    (usage : JsNum) (usage_uom url md5v : String)
    (uuid2 uid2 pid2 fd2 td2 : String) (ea ra na : JsNum)
    (uom2 fs2 url2 md52 : String) (tid2 : Option String) :
    (∀ key rec,
      recordEmissions hash query f item utilityId partyId fromDate thruDate usage usage_uom url md5v
        = Except.ok (key, rec) →
      key = hash (utilityId ++ partyId ++ fromDate ++ thruDate) ∧ rec.uuid = key)
    ∧ (updateEmissionsRecord uuid2 uid2 pid2 fd2 td2 ea ra na uom2 fs2 url2 md52 tid2).1 = uuid2
    ∧ (updateEmissionsRecord uuid2 uid2 pid2 fd2 td2 ea ra na uom2 fs2 url2 md52 tid2).2.uuid
        = uuid2 := by
  refine ⟨?_, rfl, rfl⟩
  intro key rec hcall
  unfold recordEmissions at hcall
  cases hco2 : getCo2EmissionsFull query f item thruDate usage usage_uom with
  | error e => rw [hco2] at hcall; cases hcall
  | ok co2 =>
    rw [hco2] at hcall
    simp only [] at hcall
    have h1 := congrArg Prod.fst (Except.ok.inj hcall)
    have h2 := congrArg Prod.snd (Except.ok.inj hcall)
    simp only [] at h1 h2
    constructor
    · exact h1.symm
    · rw [← h2]
      exact h1

/-- C6 (witness): a concrete successful recordEmissions call: with the
stand-in hash appending the letter h, the storage key and the record uuid
both equal the hashed concatenation of the four identity fields, and a
concrete update keeps its caller-supplied uuid X9. -/
theorem c6_witness :
    (match recordEmissions hash0 query0 f0 itemCA ("U1") "P1" "2020-01-01" "2020-01-31"
        (JsNum.num 1000) "MWh" "u" "m5" with
      | Except.ok kr =>
          kr.1 = hash0 ("U1" ++ "P1" ++ "2020-01-01" ++ "2020-01-31") ∧ kr.2.uuid = kr.1
      | Except.error _ => False)
    ∧ (updateEmissionsRecord ("X9") "U1" "P1" "a" "b" (JsNum.num 1) (JsNum.num 2) (JsNum.num 3)
        "kWh" "s" "u" "m" Option.none).1 = "X9" := by
  have h := c6_fingerprint hash0 query0 f0 itemCA ("U1") "P1" "2020-01-01" "2020-01-31"
    (JsNum.num 1000) "MWh" "u" "m5" "X9" "U1" "P1" "a" "b" (JsNum.num 1) (JsNum.num 2)
    (JsNum.num 3) "kWh" "s" "u" "m" Option.none
  refine ⟨?_, h.2.1⟩
  have hok : (recordEmissions hash0 query0 f0 itemCA ("U1") "P1" "2020-01-01" "2020-01-31"
      (JsNum.num 1000) "MWh" "u" "m5").isOk = true := by rfl
  cases hcall : recordEmissions hash0 query0 f0 itemCA ("U1") "P1" "2020-01-01" "2020-01-31"
      (JsNum.num 1000) "MWh" "u" "m5" with
  | error e => rw [hcall] at hok; cases hok
  | ok kr => exact h.1 kr.1 kr.2 hcall

/-- C8 (counterexample): the claim is false at two concrete failures: a
connect error in recordEmissions returns the plain string ERROR plus the
message (not a structured object, no info field, no echoed inputs), and a
post-connect failure in getAllEmissionsData returns the empty array (again
no info field and no echo). -/
theorem c8_counterexample :
    invoke_recordEmissions (TxOutcome.connectError ("boom")) "user" "org" "U1" "P1"
        "2020-01-01" "2020-01-31" "1000" "MWh"
      = ClientResult.str ("ERROR: boom")
    ∧ infoOf (invoke_recordEmissions (TxOutcome.connectError ("boom")) "user" "org" "U1" "P1"
        "2020-01-01" "2020-01-31" "1000" "MWh") = Option.none
    ∧ invoke_getAllEmissionsData (TxOutcome.laterError ("boom")) 2026 ("user") "org" "U1" "P1"
      = ClientResult.arr []
    ∧ infoOf (invoke_getAllEmissionsData (TxOutcome.laterError ("boom")) 2026 ("user") "org" "U1" "P1")
      = Option.none := by
  exact ⟨rfl, rfl, rfl, rfl⟩

/-- C8 (amended): the actual failure shaping of the remote invocation
client: none of the three operations throws past its boundary; connect
errors return the plain string ERROR plus the message in all three
operations; post-connect failures return, for recordEmissions, an object
with the submit failure info line echoing the six ledger inputs, for
getEmissionsData, an object with the evaluate failure info line echoing
only the uuid, and for getAllEmissionsData, the empty array with nothing
echoed. -/
theorem c8_failure_shaping (msg userId orgName utilityId partyId fromDate thruDate
    energyUseAmount energyUseUom uuid : String) (currentYear : Nat) :
    invoke_recordEmissions (TxOutcome.connectError msg) userId orgName utilityId partyId
        fromDate thruDate energyUseAmount energyUseUom
      = ClientResult.str ("ERROR: " ++ msg)
    ∧ invoke_recordEmissions (TxOutcome.laterError msg) userId orgName utilityId partyId
        fromDate thruDate energyUseAmount energyUseUom
      = ClientResult.obj
          [("info", "Failed to submit transaction: " ++ msg),
           ("utilityId", utilityId), ("partyId", partyId),
           ("fromDate", fromDate), ("thruDate", thruDate),
           ("energyUseAmount", energyUseAmount), ("energyUseUom", energyUseUom)]
    ∧ invoke_getEmissionsData (TxOutcome.connectError msg) userId orgName uuid
      = ClientResult.str ("ERROR: " ++ msg)
    ∧ invoke_getEmissionsData (TxOutcome.laterError msg) userId orgName uuid
      = ClientResult.obj
          [("info", "Failed to evaluate transaction: " ++ msg), ("uuid", uuid)]
    ∧ invoke_getAllEmissionsData (TxOutcome.connectError msg) currentYear userId orgName
        utilityId partyId
      = ClientResult.str ("ERROR: " ++ msg)
    ∧ invoke_getAllEmissionsData (TxOutcome.laterError msg) currentYear userId orgName
        utilityId partyId
      = ClientResult.arr [] := by
  exact ⟨rfl, rfl, rfl, rfl, rfl, rfl⟩

/-- C9 (counterexample): the claim says the client submits eight positional
arguments; it submits seven (the transaction name is not a positional
argument and nothing follows energyUseUom). -/
theorem c9_counterexample :
    (clientSubmittedArgs ("id0") "U1" "P1" "2020-01-01" "2020-01-31" "1000" "MWh").length = 7
    ∧ (clientSubmittedArgs ("id0") "U1" "P1" "2020-01-01" "2020-01-31" "1000" "MWh").length ≠ 8 := by
  exact ⟨rfl, by decide⟩

/-- C9 (amended): the positional argument shift at the client and engine
boundary: the client submits seven positional arguments beginning with a
freshly generated uuid, the engine recordEmissions binds eight parameters
starting at utilityId, so the engine receives the uuid as utilityId, the
caller utilityId as partyId, partyId as fromDate, fromDate as thruDate,
thruDate as energyUseAmount, energyUseAmount as energyUseUom,
energyUseUom as url, and md5 stays unbound. -/
theorem c9_argument_shift (uuid utilityId partyId fromDate thruDate
    energyUseAmount energyUseUom : String) :
    (clientSubmittedArgs uuid utilityId partyId fromDate thruDate energyUseAmount
        energyUseUom).length = 7
    ∧ bindRecordEmissionsArgs
        (clientSubmittedArgs uuid utilityId partyId fromDate thruDate energyUseAmount energyUseUom)
      = { utilityId := Option.some uuid, partyId := Option.some utilityId,
          fromDate := Option.some partyId, thruDate := Option.some fromDate,
          energyUseAmount := Option.some thruDate, energyUseUom := Option.some energyUseAmount,
          url := Option.some energyUseUom, md5 := Option.none } := by
  exact ⟨rfl, rfl⟩
